import Mathlib

/-!
ZfLogger: a shallow embedding of `ZfLog.hpp`

The header defines one class, `ZfLog::Logger`.  A log statement builds a
`Logger` (the constructor renders the status elements into an internal
`std::ostringstream`), appends values with `operator<<`, and the destructor
writes the buffer to `std::cout` or `std::cerr`.

Modelling decisions:

* A `String` stands for a `std::string`; one `Char` stands for one C++ `char`.
* The `std::ostringstream` is modelled with its buffer and the two pieces of
  formatting state the source touches: the field width (`std::setw`, reset by
  every formatted insertion) and the `std::left` adjustment flag.
* The standard streams are modelled as the sequence of insertions made into
  them, in order; they are taken in their default formatting state, and
  `std::flush`, which changes none of the bytes, is not modelled.
* The values given to `operator<<` are strings, characters, integers and
  booleans; stream manipulators and floating-point values are left out.
* The clock is part of the world: `World.clock` is the broken-down local time
  that `std::localtime(&currentTime)` yields for `std::time(NULL)`.
* A call site is run on a program state made of the caller's variables and
  the world; an argument expression may change that state, and the arguments
  of a chain are evaluated from left to right, each just before it is
  appended.
* The macros of the "Log Configuration" block that switch behaviour (the
  threshold, the display toggles, the widths) are fields of `Config`; the
  colour macros are kept as the constants the source defines.
-/

namespace ZfLog

/-! ## Static defines -/

def RED : String := "\x1b[31m"
def YELLOW : String := "\x1b[33m"
def DEFAULT : String := "\x1b[38m"
def BOLD : String := "\x1b[1m"
def RESET : String := "\x1b[0m"

/-- A colour macro is a chain of string literals joined by `<<`
(`FATAL_COLOR` is `RED << BOLD`): each literal is inserted in turn. -/
abbrev ColorMacro := List String

def TIMESTAMP_COLOR : ColorMacro := [DEFAULT]
def NONE_COLOR : ColorMacro := [DEFAULT]
def FATAL_COLOR : ColorMacro := [RED, BOLD]
def ERROR_COLOR : ColorMacro := [RED]
def WARNING_COLOR : ColorMacro := [YELLOW]
def INFO_COLOR : ColorMacro := [DEFAULT]
def DEBUG_COLOR : ColorMacro := [DEFAULT]
def VERBOSE_COLOR : ColorMacro := [DEFAULT]
def LOCATION_COLOR : ColorMacro := [DEFAULT]
def MSG_TEXT_COLOR : ColorMacro := [DEFAULT]

/-! ## Severity -/

/-- The enumeration `ZfLog::Severity`.  The `default:` branches of the source
handle values outside the seven enumerators, which this type excludes. -/
inductive Severity where
  | NONE
  | FATAL
  | ERROR
  | WARNING
  | INFO
  | DEBUG
  | VERBOSE
  deriving DecidableEq, Repr

namespace Severity

/-- The integer value of an enumerator, as used by the comparison
`m_severity > MAX_SEVERITY_LEVEL`. -/
def rank : Severity → Nat
  | NONE => 0
  | FATAL => 1
  | ERROR => 2
  | WARNING => 3
  | INFO => 4
  | DEBUG => 5
  | VERBOSE => 6

end Severity

open Severity in
def severityToString (s : Severity) : String :=
  match s with
  | NONE => "NONE"
  | FATAL => "FATAL"
  | ERROR => "ERROR"
  | WARNING => "WARN"
  | INFO => "INFO"
  | DEBUG => "DEBUG"
  | VERBOSE => "VERB"

/-! ## Log configuration -/

/-- The switches of the "Log Configuration" block.  `MAX_SEVERITY_LEVEL` is
the severity level the macro names. -/
structure Config where
  LOGGING_ENABLED : Bool
  MAX_SEVERITY_LEVEL : Severity
  DISPLAY_TIMESTAMP : Bool
  DISPLAY_SEVERITY : Bool
  DISPLAY_LOCATION : Bool
  AUTO_NEWLINE : Bool
  NONE_SIMPLE_LOG : Bool
  TIMESTAMP_WIDTH : Nat
  SEVERITY_WIDTH : Nat
  LOCATION_WIDTH : Nat
  deriving DecidableEq, Repr

/-- The configuration as the header ships it. -/
def defaultConfig : Config where
  LOGGING_ENABLED := true
  MAX_SEVERITY_LEVEL := Severity.INFO
  DISPLAY_TIMESTAMP := true
  DISPLAY_SEVERITY := true
  DISPLAY_LOCATION := false
  AUTO_NEWLINE := true
  NONE_SIMPLE_LOG := true
  TIMESTAMP_WIDTH := 22
  SEVERITY_WIDTH := 8
  LOCATION_WIDTH := 1

/-! ## The world: clock and standard streams -/

/-- The fields of `struct tm` that the format `%Y-%m-%d %H:%M:%S` reads. -/
structure Tm where
  tm_year : Int
  tm_mon : Nat
  tm_mday : Nat
  tm_hour : Nat
  tm_min : Nat
  tm_sec : Nat
  deriving DecidableEq, Repr

/-- A calendar time in the ranges the C library gives the fields, with a year
of four digits: years 1000 to 9999, months 0 to 11, days 1 to 31, hours 0 to
23, minutes 0 to 59, seconds 0 to 60. -/
def Tm.inCalendarRange (t : Tm) : Bool :=
  decide (1000 ≤ t.tm_year + 1900) && decide (t.tm_year + 1900 ≤ 9999) &&
    decide (t.tm_mon ≤ 11) && decide (1 ≤ t.tm_mday) && decide (t.tm_mday ≤ 31) &&
    decide (t.tm_hour ≤ 23) && decide (t.tm_min ≤ 59) && decide (t.tm_sec ≤ 60)

/-- What the program can observe: the local time the clock currently reads,
and the insertions made so far into `std::cout` and `std::cerr`. -/
structure World where
  clock : Tm
  cout : List String
  cerr : List String
  deriving DecidableEq, Repr

/-- The bytes a stream has received: its insertions, concatenated. -/
def bytes (writes : List String) : String :=
  String.join writes

/-- A two-digit, zero-padded decimal field of `strftime` (`%m`, `%d`, `%H`,
`%M`, `%S`). -/
def pad2 (n : Nat) : String :=
  if n < 10 then "0" ++ toString n else toString n

/-- The call `std::strftime(buffer, sizeof(buffer), "%Y-%m-%d %H:%M:%S", tm)`. -/
def strftime (t : Tm) : String :=
  toString (t.tm_year + 1900) ++ "-" ++ pad2 (t.tm_mon + 1) ++ "-" ++ pad2 t.tm_mday
    ++ " " ++ pad2 t.tm_hour ++ ":" ++ pad2 t.tm_min ++ ":" ++ pad2 t.tm_sec

/-! ## The string stream -/

/-- The state of `m_osstream`: the characters written, the pending field width
and whether `std::left` is set (the default adjustment is to the right). -/
structure OStringStream where
  buf : String
  width : Nat
  left : Bool
  deriving DecidableEq, Repr

namespace OStringStream

/-- A freshly constructed stream. -/
def init : OStringStream :=
  { buf := "", width := 0, left := false }

/-- The fill characters a formatted insertion of `s` adds under width `w`. -/
def fill (w : Nat) (s : String) : String :=
  String.replicate (w - s.length) ' '

/-- The field written for `s` under width `w`: never truncated, padded with
spaces up to `w` on the side the adjustment selects. -/
def field (left : Bool) (w : Nat) (s : String) : String :=
  if left then s ++ fill w s else fill w s ++ s

/-- The manipulator `std::setw(n)`. -/
def setw (os : OStringStream) (n : Nat) : OStringStream :=
  { os with width := n }

/-- The manipulator `std::left`. -/
def setLeft (os : OStringStream) : OStringStream :=
  { os with left := true }

/-- A formatted insertion `os << s`: writes the padded field and resets the
width to zero. -/
def put (os : OStringStream) (s : String) : OStringStream :=
  { os with buf := os.buf ++ field os.left os.width s, width := 0 }

/-- Insertion of a colour macro: `os << a << b ...`. -/
def putMacro (os : OStringStream) (m : ColorMacro) : OStringStream :=
  m.foldl put os

/-- The member `str()`. -/
def str (os : OStringStream) : String :=
  os.buf

end OStringStream

/-! ## Appended values -/

/-- A value given to `operator<<`: a string, a character, an integer or a
boolean, each inserted by the standard `std::ostream` conversion. -/
inductive Value where
  | str (s : String)
  | chr (c : Char)
  | int (n : Int)
  | bool (b : Bool)
  deriving DecidableEq, Repr

/-- The textual form `std::ostream` gives a value (decimal integers, booleans
as `1` and `0`). -/
def Value.text : Value → String
  | .str s => s
  | .chr c => String.singleton c
  | .int n => toString n
  | .bool b => if b then "1" else "0"

/-! ## The class `Logger` -/

structure Logger where
  m_severity : Severity
  m_fileName : String
  m_lineNum : Int
  m_osstream : OStringStream
  deriving DecidableEq, Repr

namespace Logger

open OStringStream

def getFormatTimeString (w : World) : String :=
  "[" ++ strftime w.clock ++ "]"

def displayTimestamp (cfg : Config) (w : World) (self : Logger) : Logger :=
  let os := setLeft (setw (putMacro self.m_osstream TIMESTAMP_COLOR) cfg.TIMESTAMP_WIDTH)
  let os := put os (getFormatTimeString w)
  { self with m_osstream := put os RESET }

def getFormatSeverityString (self : Logger) : String :=
  "[" ++ severityToString self.m_severity ++ "]"

def displaySeverity (cfg : Config) (self : Logger) : Logger :=
  let os :=
    match self.m_severity with
    | .NONE => putMacro self.m_osstream NONE_COLOR
    | .FATAL => putMacro self.m_osstream FATAL_COLOR
    | .ERROR => putMacro self.m_osstream ERROR_COLOR
    | .WARNING => putMacro self.m_osstream WARNING_COLOR
    | .INFO => putMacro self.m_osstream INFO_COLOR
    | .DEBUG => putMacro self.m_osstream DEBUG_COLOR
    | .VERBOSE => putMacro self.m_osstream VERBOSE_COLOR
  let os := setLeft (setw os cfg.SEVERITY_WIDTH)
  let os := put os (getFormatSeverityString self)
  { self with m_osstream := put os RESET }

def getFormatLocationString (self : Logger) : String :=
  "(" ++ self.m_fileName ++ "@" ++ toString self.m_lineNum ++ ")"

def displayLocation (cfg : Config) (self : Logger) : Logger :=
  let os := setLeft (setw (putMacro self.m_osstream LOCATION_COLOR) cfg.LOCATION_WIDTH)
  let os := put (put os (getFormatLocationString self)) " "
  { self with m_osstream := put os RESET }

def printStatusElements (cfg : Config) (w : World) (self : Logger) : Logger :=
  if cfg.NONE_SIMPLE_LOG && self.m_severity == Severity.NONE then self
  else
    let self := if cfg.DISPLAY_TIMESTAMP then displayTimestamp cfg w self else self
    let self := if cfg.DISPLAY_SEVERITY then displaySeverity cfg self else self
    let self := if cfg.DISPLAY_LOCATION then displayLocation cfg self else self
    { self with m_osstream := putMacro self.m_osstream MSG_TEXT_COLOR }

/-- The constructor `Logger(s, fileName, lineNum)`: it reads the clock and
leaves the world as it is. -/
def ctor (cfg : Config) (s : Severity) (fileName : String) (lineNum : Int) (w : World) :
    Logger × World :=
  (printStatusElements cfg w
    { m_severity := s, m_fileName := fileName, m_lineNum := lineNum, m_osstream := init }, w)

/-- The member `operator<<`: inserts the value into `m_osstream` and returns
the statement. -/
def shl (self : Logger) (value : Value) (w : World) : Logger × World :=
  ({ self with m_osstream := put self.m_osstream value.text }, w)

/-- The destructor `~Logger()`. -/
def dtor (cfg : Config) (self : Logger) (w : World) : World :=
  if self.m_severity.rank > cfg.MAX_SEVERITY_LEVEL.rank then w
  else
    let os := if cfg.AUTO_NEWLINE then put self.m_osstream "\n" else self.m_osstream
    if self.m_severity = Severity.INFO ∨ self.m_severity = Severity.NONE then
      { w with cout := w.cout ++ [os.str] }
    else
      { w with cerr := w.cerr ++ [os.str] }

/-- The chain `stmt << v1 << ... << vn`, left to right. -/
def shlAll (self : Logger) (values : List Value) (w : World) : Logger × World :=
  values.foldl (fun st v => shl st.1 v st.2) (self, w)

end Logger

/-- A complete log statement with logging enabled,
`ZfLog::Logger(severity, file, line) << v1 << ... << vn;`:
construction, the appends in order, destruction at the end of the full
expression. -/
def statement (cfg : Config) (s : Severity) (fileName : String) (lineNum : Int)
    (values : List Value) (w : World) : World :=
  let st := Logger.ctor cfg s fileName lineNum w
  let st := Logger.shlAll st.1 values st.2
  Logger.dtor cfg st.1 st.2

/-- The insertions made into `std::cout` and into `std::cerr` between the
world `before` and the later world `after`. -/
def written (before after : World) : List String × List String :=
  (after.cout.drop before.cout.length, after.cerr.drop before.cerr.length)

/-- The text of a chain of appended values: their textual forms in order. -/
def textOf (values : List Value) : String :=
  String.join (values.map Value.text)

/-- The number of line feeds a string ends with. -/
def trailingNewlines (s : String) : Nat :=
  (s.data.reverse.takeWhile (fun c => c == '\n')).length

/-! ## The output format as the specification lays it out -/

namespace Spec

/-- Left-justify `s` in a field of minimum width `n`, filling with spaces and
never truncating. -/
def padRight (s : String) (n : Nat) : String :=
  s ++ String.replicate (n - s.length) ' '

/-- The display colour of a severity: red and bold for `FATAL`, red for
`ERROR`, yellow for `WARNING`, the default colour otherwise. -/
def colour : Severity → String
  | .FATAL => "\x1b[31m" ++ "\x1b[1m"
  | .ERROR => "\x1b[31m"
  | .WARNING => "\x1b[33m"
  | _ => "\x1b[38m"

/-- The timestamp field: colour, the bracketed local time padded to the field
width, reset; empty when the timestamp is not displayed. -/
def timestampField (cfg : Config) (t : Tm) : String :=
  if cfg.DISPLAY_TIMESTAMP then
    "\x1b[38m" ++ padRight ("[" ++ strftime t ++ "]") cfg.TIMESTAMP_WIDTH ++ "\x1b[0m"
  else ""

/-- The severity field: the severity colour, the bracketed short name padded
to the field width, reset; empty when the severity is not displayed. -/
def severityField (cfg : Config) (s : Severity) : String :=
  if cfg.DISPLAY_SEVERITY then
    colour s ++ padRight ("[" ++ severityToString s ++ "]") cfg.SEVERITY_WIDTH ++ "\x1b[0m"
  else ""

/-- The location field: colour, `(file@line)` padded to the field width, one
space, reset; empty when the location is not displayed. -/
def locationField (cfg : Config) (fileName : String) (lineNum : Int) : String :=
  if cfg.DISPLAY_LOCATION then
    "\x1b[38m" ++ padRight ("(" ++ fileName ++ "@" ++ toString lineNum ++ ")") cfg.LOCATION_WIDTH
      ++ " " ++ "\x1b[0m"
  else ""

/-- The trailing newline: a line feed exactly when auto-newline is on. -/
def newline (cfg : Config) : String :=
  if cfg.AUTO_NEWLINE then "\n" else ""

/-- Whether a statement of severity `s` falls under the simple-NONE policy. -/
def simpleNone (cfg : Config) (s : Severity) : Bool :=
  cfg.NONE_SIMPLE_LOG && s == Severity.NONE

/-- The status elements written at construction: nothing for a simple-NONE
statement, otherwise the three fields in order and then the message colour. -/
def statusElements (cfg : Config) (s : Severity) (fileName : String) (lineNum : Int)
    (t : Tm) : String :=
  if simpleNone cfg s then ""
  else
    timestampField cfg t ++ severityField cfg s ++ locationField cfg fileName lineNum
      ++ "\x1b[38m"

/-- The timestamp field of a statement's line: empty for a simple-NONE
statement, the timestamp field otherwise. -/
def lineTimestamp (cfg : Config) (s : Severity) (t : Tm) : String :=
  if simpleNone cfg s then "" else timestampField cfg t

/-- Everything the line holds after its timestamp field: severity field,
location field, message colour, user text and newline (user text and newline
only for a simple-NONE statement). -/
def afterTimestamp (cfg : Config) (s : Severity) (fileName : String) (lineNum : Int)
    (values : List Value) : String :=
  if simpleNone cfg s then textOf values ++ newline cfg
  else
    severityField cfg s ++ locationField cfg fileName lineNum ++ "\x1b[38m" ++ textOf values
      ++ newline cfg

end Spec

/-! ## Call sites -/

/-- The state of the calling program: its own variables and the world. -/
structure State (μ : Type) where
  vars : μ
  world : World
  deriving DecidableEq, Repr

/-- An argument expression of a log call: evaluating it yields the value to
append and may change the state of the program. -/
abbrev Expr (μ : Type) := State μ → Value × State μ

/-- The expression statement
`ZfLog::Logger(severity, __FILE__, __LINE__) << e1 << ... << en;`:
the temporary is constructed, each argument is evaluated and appended from
left to right, and the temporary is destroyed at the end of the statement. -/
def logExpression {μ : Type} (cfg : Config) (s : Severity) (fileName : String)
    (lineNum : Int) (args : List (Expr μ)) (st : State μ) : State μ :=
  let c := Logger.ctor cfg s fileName lineNum st.world
  let r := args.foldl
    (fun (acc : Logger × State μ) (e : Expr μ) =>
      let ev := e acc.2
      let a := Logger.shl acc.1 ev.1 ev.2.world
      (a.1, { ev.2 with world := a.2 }))
    (c.1, { st with world := c.2 })
  { r.2 with world := Logger.dtor cfg r.1 r.2.world }

/-- A call site `ZFLOG(severity) << e1 << ... << en;`.  With
`LOGGING_ENABLED` defined the macro is the construction of the temporary;
without it the macro is `if (false)` followed by that construction, so the
whole expression statement is the body of a branch that is never taken. -/
def ZFLOG {μ : Type} (cfg : Config) (s : Severity) (fileName : String) (lineNum : Int)
    (args : List (Expr μ)) (st : State μ) : State μ :=
  if cfg.LOGGING_ENABLED then logExpression cfg s fileName lineNum args st
  else if false then logExpression cfg s fileName lineNum args st
  else st

/-- An argument without side effects. -/
def pureArg {μ : Type} (v : Value) : Expr μ :=
  fun st => (v, st)

/-! ## Reading a line as a terminal shows it -/

/-- Remove the colour sequences from a line: everything from an escape
character up to and including the next `m` is dropped.  The flag tells whether
the scan is inside a sequence. -/
def stripEscapes : Bool → List Char → List Char
  | _, [] => []
  | true, c :: cs => if c = 'm' then stripEscapes false cs else stripEscapes true cs
  | false, c :: cs =>
    if c = Char.ofNat 27 then stripEscapes true cs else c :: stripEscapes false cs

/-- The characters of a line that take up a column on the terminal. -/
def visible (s : String) : String :=
  String.mk (stripEscapes false s.data)

namespace Spec

/-- The character allowed at position `i` of `YYYY-MM-DD HH:MM:SS`. -/
def isShapeChar (i : Nat) (c : Char) : Bool :=
  if i = 4 ∨ i = 7 then c == '-'
  else if i = 10 then c == ' '
  else if i = 13 ∨ i = 16 then c == ':'
  else c.isDigit

/-- Whether the characters, starting at position `i`, fit `YYYY-MM-DD HH:MM:SS`. -/
def shapeFrom : Nat → List Char → Bool
  | _, [] => true
  | i, c :: cs => isShapeChar i c && shapeFrom (i + 1) cs

/-- Whether a rendered local time has the shape `YYYY-MM-DD HH:MM:SS`:
nineteen characters, digits separated by `-`, a space and `:`. -/
def hasTimestampShape (t : String) : Bool :=
  t.length == 19 && shapeFrom 0 t.data

end Spec

/-! ## Sample inputs -/

/-- The local time 2023-01-05 09:30:07. -/
def sampleClock : Tm :=
  { tm_year := 123, tm_mon := 0, tm_mday := 5, tm_hour := 9, tm_min := 30, tm_sec := 7 }

/-- The local time 2024-12-31 23:59:59. -/
def laterClock : Tm :=
  { tm_year := 124, tm_mon := 11, tm_mday := 31, tm_hour := 23, tm_min := 59, tm_sec := 59 }

/-- The shipped configuration with the location displayed and the threshold
raised to `VERBOSE`. -/
def allFieldsConfig : Config :=
  { defaultConfig with DISPLAY_LOCATION := true, MAX_SEVERITY_LEVEL := Severity.VERBOSE }

/-- The shipped configuration with auto-newline switched off. -/
def noNewlineConfig : Config :=
  { defaultConfig with AUTO_NEWLINE := false }

/-- The shipped configuration with `LOGGING_ENABLED` undefined. -/
def disabledConfig : Config :=
  { defaultConfig with LOGGING_ENABLED := false }

/-- An argument with a side effect, `counter++`: it yields the counter and
increments it. -/
def counterArg : Expr Nat :=
  fun st => (Value.int (Int.ofNat st.vars), { st with vars := st.vars + 1 })

/-- A program state with the counter at zero and nothing written yet. -/
def sampleState : State Nat :=
  { vars := 0, world := { clock := sampleClock, cout := [], cerr := [] } }

/-- The state `sampleState` after an `ERROR` call that appends `n=` and the
counter: the counter is at one and standard error holds the line. -/
def loggedState : State Nat where
  vars := 1
  world := {
    clock := sampleClock
    cout := []
    cerr := ["\x1b[38m[2023-01-05 09:30:07] \x1b[0m\x1b[31m[ERROR] \x1b[0m\x1b[38mn=0\n"] }

/-- A `FATAL` statement for `main.cpp`, line 12, whose stream is still empty. -/
def freshLogger : Logger :=
  { m_severity := Severity.FATAL, m_fileName := "main.cpp", m_lineNum := 12,
    m_osstream := OStringStream.init }

/-- A world in which nothing has been written yet. -/
def sampleWorld : World :=
  { clock := sampleClock, cout := [], cerr := [] }

/-- A world with earlier output on both streams. -/
def busyWorld : World :=
  { clock := laterClock, cout := ["ready\n"], cerr := ["warming up\n"] }

/-- The world `busyWorld` with the clock reading of `sampleWorld`. -/
def replayWorld : World :=
  { clock := sampleClock, cout := ["ready\n"], cerr := ["warming up\n"] }

/-! ## Lemmas on strings and on the string stream -/

theorem join_foldl (acc : String) (l : List String) :
    l.foldl (fun r s => r ++ s) acc = acc ++ String.join l := by
  induction l generalizing acc with
  | nil => simp [String.join]
  | cons x xs ih =>
    simp only [List.foldl_cons, String.join]
    rw [ih, ih ("" ++ x)]
    simp [String.append_assoc]

theorem join_cons (x : String) (l : List String) :
    String.join (x :: l) = x ++ String.join l := by
  simp only [String.join, List.foldl_cons]
  rw [join_foldl]
  simp [String.join]

theorem replicate_zero (c : Char) : String.replicate 0 c = "" := rfl

namespace OStringStream

theorem field_zero (l : Bool) (s : String) : field l 0 s = s := by
  cases l <;> simp [field, fill, replicate_zero]

theorem field_left (w : Nat) (s : String) : field true w s = Spec.padRight s w := by
  simp [field, fill, Spec.padRight]

theorem put_of_width_zero (os : OStringStream) (s : String) (h : os.width = 0) :
    put os s = { os with buf := os.buf ++ s } := by
  cases os
  simp only at h
  subst h
  simp [put, field_zero]

theorem put_setLeft_setw (os : OStringStream) (n : Nat) (s : String) :
    put (setLeft (setw os n)) s =
      { buf := os.buf ++ Spec.padRight s n, width := 0, left := true } := by
  simp [put, setLeft, setw, field_left]

end OStringStream

namespace Logger

open OStringStream

theorem displayTimestamp_eq (cfg : Config) (w : World) (self : Logger)
    (h : self.m_osstream.width = 0) :
    displayTimestamp cfg w self =
      { self with m_osstream :=
          { buf := self.m_osstream.buf ++ ("\x1b[38m" ++
              Spec.padRight ("[" ++ strftime w.clock ++ "]") cfg.TIMESTAMP_WIDTH ++ "\x1b[0m"),
            width := 0, left := true } } := by
  simp [displayTimestamp, putMacro, TIMESTAMP_COLOR, put_of_width_zero, h, put_setLeft_setw,
    getFormatTimeString, DEFAULT, RESET, String.append_assoc]

theorem displaySeverity_eq (cfg : Config) (self : Logger) (h : self.m_osstream.width = 0) :
    displaySeverity cfg self =
      { self with m_osstream :=
          { buf := self.m_osstream.buf ++ (Spec.colour self.m_severity ++
              Spec.padRight ("[" ++ severityToString self.m_severity ++ "]") cfg.SEVERITY_WIDTH
              ++ "\x1b[0m"),
            width := 0, left := true } } := by
  obtain ⟨sev, f, n, os⟩ := self
  simp only at h
  cases sev <;>
    simp [displaySeverity, putMacro, NONE_COLOR, FATAL_COLOR, ERROR_COLOR, WARNING_COLOR,
      INFO_COLOR, DEBUG_COLOR, VERBOSE_COLOR, put_of_width_zero, h, put_setLeft_setw,
      getFormatSeverityString, DEFAULT, RED, BOLD, YELLOW, RESET, Spec.colour,
      String.append_assoc]

theorem displayLocation_eq (cfg : Config) (self : Logger) (h : self.m_osstream.width = 0) :
    displayLocation cfg self =
      { self with m_osstream :=
          { buf := self.m_osstream.buf ++ ("\x1b[38m" ++
              Spec.padRight ("(" ++ self.m_fileName ++ "@" ++ toString self.m_lineNum ++ ")")
                cfg.LOCATION_WIDTH ++ " " ++ "\x1b[0m"),
            width := 0, left := true } } := by
  simp [displayLocation, putMacro, LOCATION_COLOR, put_of_width_zero, h, put_setLeft_setw,
    getFormatLocationString, DEFAULT, RESET, String.append_assoc]

theorem ctor_fst (cfg : Config) (s : Severity) (fileName : String) (lineNum : Int)
    (w : World) :
    (ctor cfg s fileName lineNum w).1 =
      { m_severity := s, m_fileName := fileName, m_lineNum := lineNum,
        m_osstream :=
          { buf := Spec.statusElements cfg s fileName lineNum w.clock, width := 0,
            left := !Spec.simpleNone cfg s &&
              (cfg.DISPLAY_TIMESTAMP || cfg.DISPLAY_SEVERITY || cfg.DISPLAY_LOCATION) } } := by
  obtain ⟨en, mx, dt, ds, dl, an, ns, tw, sw, lw⟩ := cfg
  by_cases hs : (ns && s == Severity.NONE) = true
  · simp [ctor, printStatusElements, hs, Spec.statusElements, Spec.simpleNone, init]
  · cases dt <;> cases ds <;> cases dl <;>
      simp [ctor, printStatusElements, hs, Spec.statusElements, Spec.simpleNone, init,
        displayTimestamp_eq, displaySeverity_eq, displayLocation_eq, putMacro, MSG_TEXT_COLOR,
        put_of_width_zero, DEFAULT, Spec.timestampField, Spec.severityField,
        Spec.locationField, String.append_assoc]

theorem shl_fst (self : Logger) (v : Value) (w : World) (h : self.m_osstream.width = 0) :
    (shl self v w).1 =
      { m_severity := self.m_severity, m_fileName := self.m_fileName,
        m_lineNum := self.m_lineNum,
        m_osstream :=
          { buf := self.m_osstream.buf ++ v.text, width := 0,
            left := self.m_osstream.left } } := by
  simp [shl, put_of_width_zero, h]

theorem shl_snd (self : Logger) (v : Value) (w : World) : (shl self v w).2 = w := rfl

theorem shlAll_nil (self : Logger) (w : World) : shlAll self [] w = (self, w) := rfl

theorem shlAll_cons (self : Logger) (v : Value) (vs : List Value) (w : World) :
    shlAll self (v :: vs) w = shlAll (shl self v w).1 vs (shl self v w).2 := rfl

theorem shlAll_snd (self : Logger) (vs : List Value) (w : World) :
    (shlAll self vs w).2 = w := by
  induction vs generalizing self with
  | nil => rfl
  | cons v vs ih => rw [shlAll_cons, shl_snd, ih]

theorem shlAll_fst (self : Logger) (vs : List Value) (w : World)
    (h : self.m_osstream.width = 0) :
    (shlAll self vs w).1 =
      { m_severity := self.m_severity, m_fileName := self.m_fileName,
        m_lineNum := self.m_lineNum,
        m_osstream :=
          { buf := self.m_osstream.buf ++ textOf vs, width := 0,
            left := self.m_osstream.left } } := by
  induction vs generalizing self with
  | nil =>
    obtain ⟨sev, f, n, b, wd, l⟩ := self
    simp only at h
    subst h
    simp [shlAll_nil, textOf, String.join]
  | cons v vs ih =>
    rw [shlAll_cons, shl_snd, ih _ (by simp [shl, put]), shl_fst _ _ _ h]
    simp [textOf, join_cons, String.append_assoc]

theorem shlAll_snoc (self : Logger) (vs : List Value) (v : Value) (w : World) :
    shlAll self (vs ++ [v]) w = shl (shlAll self vs w).1 v (shlAll self vs w).2 := by
  simp [shlAll, List.foldl_append]

end Logger

/-- The line a statement holds when its scope ends: status elements, user
text, newline. -/
theorem statement_eq (cfg : Config) (s : Severity) (fileName : String) (lineNum : Int)
    (values : List Value) (w : World) :
    statement cfg s fileName lineNum values w =
      if s.rank > cfg.MAX_SEVERITY_LEVEL.rank then w
      else if s = Severity.INFO ∨ s = Severity.NONE then
        { w with cout := w.cout ++
            [Spec.statusElements cfg s fileName lineNum w.clock ++ textOf values
              ++ Spec.newline cfg] }
      else
        { w with cerr := w.cerr ++
            [Spec.statusElements cfg s fileName lineNum w.clock ++ textOf values
              ++ Spec.newline cfg] } := by
  have hw : (Logger.ctor cfg s fileName lineNum w).2 = w := rfl
  simp only [statement, hw, Logger.shlAll_snd]
  rw [Logger.shlAll_fst _ _ _ (by rw [Logger.ctor_fst]), Logger.ctor_fst]
  cases h : cfg.AUTO_NEWLINE <;>
    simp [Logger.dtor, h, Spec.newline, OStringStream.str, OStringStream.put_of_width_zero]

theorem bytes_snoc (writes : List String) (x : String) :
    bytes (writes ++ [x]) = bytes writes ++ x := by
  simp [bytes, String.join, List.foldl_append]

theorem written_self (w : World) : written w w = ([], []) := by
  simp [written]

theorem written_cout (w : World) (x : String) :
    written w { w with cout := w.cout ++ [x] } = ([x], []) := by
  simp [written]

theorem written_cerr (w : World) (x : String) :
    written w { w with cerr := w.cerr ++ [x] } = ([], [x]) := by
  simp [written]

theorem trailingNewlines_newline (s : String) :
    trailingNewlines (s ++ "\n") = trailingNewlines s + 1 := by
  simp [trailingNewlines, String.data_append, List.takeWhile_cons]

theorem line_split (cfg : Config) (s : Severity) (fileName : String) (lineNum : Int)
    (values : List Value) (t : Tm) :
    Spec.statusElements cfg s fileName lineNum t ++ textOf values ++ Spec.newline cfg =
      Spec.lineTimestamp cfg s t ++ Spec.afterTimestamp cfg s fileName lineNum values := by
  cases h : Spec.simpleNone cfg s <;>
    simp [Spec.statusElements, Spec.lineTimestamp, Spec.afterTimestamp, h, String.append_assoc]

/-- What a statement adds to the two streams: nothing when suppressed,
otherwise one insertion made of the timestamp part and the rest of the line. -/
theorem written_statement (cfg : Config) (s : Severity) (fileName : String) (lineNum : Int)
    (values : List Value) (w : World) :
    written w (statement cfg s fileName lineNum values w) =
      if s.rank > cfg.MAX_SEVERITY_LEVEL.rank then ([], [])
      else if s = Severity.INFO ∨ s = Severity.NONE then
        ([Spec.lineTimestamp cfg s w.clock
          ++ Spec.afterTimestamp cfg s fileName lineNum values], [])
      else
        ([], [Spec.lineTimestamp cfg s w.clock
          ++ Spec.afterTimestamp cfg s fileName lineNum values]) := by
  rw [statement_eq, line_split]
  by_cases hr : s.rank > cfg.MAX_SEVERITY_LEVEL.rank
  · simp only [hr, if_true, written_self]
  · by_cases hs : s = Severity.INFO ∨ s = Severity.NONE
    · simp only [hr, hs, if_true, if_false, written_cout]
    · simp only [hr, hs, if_false, written_cerr]

theorem lineTimestamp_clock_free (cfg : Config) (s : Severity) (t1 t2 : Tm)
    (h : (cfg.NONE_SIMPLE_LOG = true ∧ s = Severity.NONE) ∨ cfg.DISPLAY_TIMESTAMP = false) :
    Spec.lineTimestamp cfg s t1 = Spec.lineTimestamp cfg s t2 := by
  rcases h with ⟨h1, h2⟩ | h
  · simp [Spec.lineTimestamp, Spec.simpleNone, h1, h2]
  · simp [Spec.lineTimestamp, Spec.timestampField, h]

/-! ## The claims -/

/-- C1. Suppression: a statement whose severity rank exceeds the rank of the
configured maximum severity leaves the world exactly as it was, whatever the
file name, the line number and the appended values: nothing is inserted into
standard output and nothing into standard error. -/
theorem C1_suppressed_statement_writes_nothing (cfg : Config) (s : Severity)
    (fileName : String) (lineNum : Int) (values : List Value) (w : World)
    (h : s.rank > cfg.MAX_SEVERITY_LEVEL.rank) :
    statement cfg s fileName lineNum values w = w ∧
      (statement cfg s fileName lineNum values w).cout = w.cout ∧
      (statement cfg s fileName lineNum values w).cerr = w.cerr ∧
      written w (statement cfg s fileName lineNum values w) = ([], []) := by
  have hw : statement cfg s fileName lineNum values w = w := by
    rw [statement_eq, if_pos h]
  rw [hw]
  exact ⟨rfl, rfl, rfl, written_self w⟩

/-- With the maximum severity `INFO` (rank 4) a `DEBUG` statement and a
`VERBOSE` statement leave both streams untouched. -/
theorem C1_suppressed_statement_writes_nothing_witness :
    (Severity.DEBUG.rank > defaultConfig.MAX_SEVERITY_LEVEL.rank ∧
      statement defaultConfig Severity.DEBUG "main.cpp" 42 [Value.str "x = ", Value.int 7]
        busyWorld = busyWorld) ∧
    (Severity.VERBOSE.rank > defaultConfig.MAX_SEVERITY_LEVEL.rank ∧
      statement defaultConfig Severity.VERBOSE "main.cpp" 43 [Value.str "tick"]
        busyWorld = busyWorld) :=
  ⟨⟨by decide,
      (C1_suppressed_statement_writes_nothing defaultConfig Severity.DEBUG "main.cpp" 42
        [Value.str "x = ", Value.int 7] busyWorld (by decide)).1⟩,
    ⟨by decide,
      (C1_suppressed_statement_writes_nothing defaultConfig Severity.VERBOSE "main.cpp" 43
        [Value.str "tick"] busyWorld (by decide)).1⟩⟩

/-- C2. Routing to standard error: a statement whose severity is admitted by
the threshold and is neither `INFO` nor `NONE` makes exactly one insertion
into standard error, holding the status elements written at construction, then
the appended text, then the newline when auto-newline is on; standard output
is unchanged. -/
theorem C2_admitted_other_severities_go_to_stderr (cfg : Config) (s : Severity)
    (fileName : String) (lineNum : Int) (values : List Value) (w : World)
    (hrank : s.rank ≤ cfg.MAX_SEVERITY_LEVEL.rank)
    (hinfo : s ≠ Severity.INFO) (hnone : s ≠ Severity.NONE) :
    statement cfg s fileName lineNum values w =
        { w with cerr := w.cerr ++
            [(Logger.ctor cfg s fileName lineNum w).1.m_osstream.str ++ textOf values
              ++ (if cfg.AUTO_NEWLINE then "\n" else "")] } ∧
      (statement cfg s fileName lineNum values w).cout = w.cout ∧
      bytes (statement cfg s fileName lineNum values w).cerr =
        bytes w.cerr ++ ((Logger.ctor cfg s fileName lineNum w).1.m_osstream.str
          ++ textOf values ++ (if cfg.AUTO_NEWLINE then "\n" else "")) := by
  have hw : statement cfg s fileName lineNum values w =
      { w with cerr := w.cerr ++
          [(Logger.ctor cfg s fileName lineNum w).1.m_osstream.str ++ textOf values
            ++ (if cfg.AUTO_NEWLINE then "\n" else "")] } := by
    rw [statement_eq, if_neg (Nat.not_lt.mpr hrank), if_neg (by simp [hinfo, hnone]),
      Logger.ctor_fst]
    rfl
  rw [hw]
  exact ⟨rfl, rfl, bytes_snoc _ _⟩

/-- An `ERROR` statement under the shipped configuration: one insertion into
standard error, nothing into standard output. -/
theorem C2_admitted_other_severities_go_to_stderr_witness :
    (Severity.ERROR.rank ≤ defaultConfig.MAX_SEVERITY_LEVEL.rank ∧
      Severity.ERROR ≠ Severity.INFO ∧ Severity.ERROR ≠ Severity.NONE) ∧
    statement defaultConfig Severity.ERROR "net.cpp" 88 [Value.str "code ", Value.int (-3)]
        busyWorld =
      { busyWorld with cerr := ["warming up\n",
          "\x1b[38m[2024-12-31 23:59:59] \x1b[0m\x1b[31m[ERROR] \x1b[0m\x1b[38mcode -3\n"] } :=
  ⟨by decide,
    (C2_admitted_other_severities_go_to_stderr defaultConfig Severity.ERROR "net.cpp" 88
      [Value.str "code ", Value.int (-3)] busyWorld (by decide) (by decide) (by decide)).1.trans
      (by decide)⟩

/-- C3. Routing to standard output: an `INFO` or `NONE` statement admitted by
the threshold makes exactly one insertion into standard output, holding the
complete buffer; standard error is unchanged. -/
theorem C3_info_and_none_go_to_stdout (cfg : Config) (s : Severity)
    (fileName : String) (lineNum : Int) (values : List Value) (w : World)
    (hrank : s.rank ≤ cfg.MAX_SEVERITY_LEVEL.rank)
    (hs : s = Severity.INFO ∨ s = Severity.NONE) :
    statement cfg s fileName lineNum values w =
        { w with cout := w.cout ++
            [(Logger.ctor cfg s fileName lineNum w).1.m_osstream.str ++ textOf values
              ++ (if cfg.AUTO_NEWLINE then "\n" else "")] } ∧
      (statement cfg s fileName lineNum values w).cerr = w.cerr ∧
      bytes (statement cfg s fileName lineNum values w).cout =
        bytes w.cout ++ ((Logger.ctor cfg s fileName lineNum w).1.m_osstream.str
          ++ textOf values ++ (if cfg.AUTO_NEWLINE then "\n" else "")) := by
  have hw : statement cfg s fileName lineNum values w =
      { w with cout := w.cout ++
          [(Logger.ctor cfg s fileName lineNum w).1.m_osstream.str ++ textOf values
            ++ (if cfg.AUTO_NEWLINE then "\n" else "")] } := by
    rw [statement_eq, if_neg (Nat.not_lt.mpr hrank), if_pos hs, Logger.ctor_fst]
    rfl
  rw [hw]
  exact ⟨rfl, rfl, bytes_snoc _ _⟩

/-- An `INFO` statement under the shipped configuration: one insertion into
standard output, nothing into standard error. -/
theorem C3_info_and_none_go_to_stdout_witness :
    (Severity.INFO.rank ≤ defaultConfig.MAX_SEVERITY_LEVEL.rank ∧
      (Severity.INFO = Severity.INFO ∨ Severity.INFO = Severity.NONE)) ∧
    statement defaultConfig Severity.INFO "srv.cpp" 5 [Value.str "port ", Value.int 8080]
        busyWorld =
      { busyWorld with cout := ["ready\n",
          "\x1b[38m[2024-12-31 23:59:59] \x1b[0m\x1b[38m[INFO]  \x1b[0m\x1b[38mport 8080\n"] } :=
  ⟨by decide,
    (C3_info_and_none_go_to_stdout defaultConfig Severity.INFO "srv.cpp" 5
      [Value.str "port ", Value.int 8080] busyWorld (by decide) (by decide)).1.trans
      (by decide)⟩

/-- C4. Simple NONE log: with `NONE_SIMPLE_LOG` on, a `NONE` statement makes
one insertion into standard output that is exactly the concatenation of the
textual forms of the appended values, followed by a line feed exactly when
auto-newline is on; the logger adds no timestamp, severity tag, location or
colour sequence, and standard error is unchanged. -/
theorem C4_simple_none_is_raw_text (cfg : Config) (fileName : String) (lineNum : Int)
    (values : List Value) (w : World) (h : cfg.NONE_SIMPLE_LOG = true) :
    statement cfg Severity.NONE fileName lineNum values w =
      { w with cout := w.cout ++
          [String.join (values.map Value.text) ++ (if cfg.AUTO_NEWLINE then "\n" else "")] } := by
  rw [statement_eq, if_neg (by simp [Severity.rank]), if_pos (Or.inr rfl)]
  simp [Spec.statusElements, Spec.simpleNone, h, Spec.newline, textOf]

/-- Appending `"hello"` to a `NONE` statement puts exactly `hello\n` on
standard output. -/
theorem C4_simple_none_is_raw_text_witness :
    defaultConfig.NONE_SIMPLE_LOG = true ∧
    statement defaultConfig Severity.NONE "main.cpp" 7 [Value.str "hello"] sampleWorld =
      { sampleWorld with cout := ["hello\n"] } :=
  ⟨rfl,
    (C4_simple_none_is_raw_text defaultConfig "main.cpp" 7 [Value.str "hello"] sampleWorld
      rfl).trans (by decide)⟩

/-- C5 as stated fails: with auto-newline on, an `INFO` statement whose
appended text already ends in a line feed is written with two trailing line
feeds; with auto-newline off the same statement is written with one. -/
theorem C5_counterexample :
    (defaultConfig.AUTO_NEWLINE = true ∧
      Severity.INFO.rank ≤ defaultConfig.MAX_SEVERITY_LEVEL.rank ∧
      statement defaultConfig Severity.INFO "main.cpp" 3 [Value.str "done\n"] sampleWorld =
        { sampleWorld with cout :=
          ["\x1b[38m[2023-01-05 09:30:07] \x1b[0m\x1b[38m[INFO]  \x1b[0m\x1b[38mdone\n\n"] } ∧
      trailingNewlines
        "\x1b[38m[2023-01-05 09:30:07] \x1b[0m\x1b[38m[INFO]  \x1b[0m\x1b[38mdone\n\n" = 2) ∧
    (noNewlineConfig.AUTO_NEWLINE = false ∧
      Severity.INFO.rank ≤ noNewlineConfig.MAX_SEVERITY_LEVEL.rank ∧
      statement noNewlineConfig Severity.INFO "main.cpp" 3 [Value.str "done\n"] sampleWorld =
        { sampleWorld with cout :=
          ["\x1b[38m[2023-01-05 09:30:07] \x1b[0m\x1b[38m[INFO]  \x1b[0m\x1b[38mdone\n"] } ∧
      trailingNewlines
        "\x1b[38m[2023-01-05 09:30:07] \x1b[0m\x1b[38m[INFO]  \x1b[0m\x1b[38mdone\n" = 1) := by
  decide

/-- C5, amended. For every emitted statement the output is the buffer as it
stands when the scope ends (status elements and appended text) followed by
exactly one line feed when auto-newline is on and by nothing when it is off.
The output therefore ends with one line feed more than the buffer when
auto-newline is on and with as many as the buffer when it is off; when the
buffer does not end in a line feed that is exactly one, respectively zero. -/
theorem C5_auto_newline_adds_exactly_one (cfg : Config) (s : Severity)
    (fileName : String) (lineNum : Int) (values : List Value) (w : World)
    (hrank : s.rank ≤ cfg.MAX_SEVERITY_LEVEL.rank) :
    (statement cfg s fileName lineNum values w =
        { w with cout := w.cout ++
          [(Logger.shlAll (Logger.ctor cfg s fileName lineNum w).1 values w).1.m_osstream.str
            ++ (if cfg.AUTO_NEWLINE then "\n" else "")] } ∨
      statement cfg s fileName lineNum values w =
        { w with cerr := w.cerr ++
          [(Logger.shlAll (Logger.ctor cfg s fileName lineNum w).1 values w).1.m_osstream.str
            ++ (if cfg.AUTO_NEWLINE then "\n" else "")] }) ∧
      trailingNewlines
          ((Logger.shlAll (Logger.ctor cfg s fileName lineNum w).1 values w).1.m_osstream.str
            ++ (if cfg.AUTO_NEWLINE then "\n" else "")) =
        trailingNewlines
            (Logger.shlAll (Logger.ctor cfg s fileName lineNum w).1 values w).1.m_osstream.str
          + (if cfg.AUTO_NEWLINE then 1 else 0) ∧
      (trailingNewlines
            (Logger.shlAll (Logger.ctor cfg s fileName lineNum w).1 values w).1.m_osstream.str
          = 0 →
        trailingNewlines
            ((Logger.shlAll (Logger.ctor cfg s fileName lineNum w).1 values w).1.m_osstream.str
              ++ (if cfg.AUTO_NEWLINE then "\n" else "")) =
          if cfg.AUTO_NEWLINE then 1 else 0) := by
  have hb : (Logger.shlAll (Logger.ctor cfg s fileName lineNum w).1 values w).1.m_osstream.str =
      Spec.statusElements cfg s fileName lineNum w.clock ++ textOf values := by
    rw [Logger.shlAll_fst _ _ _ (by rw [Logger.ctor_fst]), Logger.ctor_fst]
    rfl
  have ht : ∀ b : String, trailingNewlines (b ++ (if cfg.AUTO_NEWLINE then "\n" else "")) =
      trailingNewlines b + (if cfg.AUTO_NEWLINE then 1 else 0) := by
    intro b
    cases cfg.AUTO_NEWLINE <;> simp [trailingNewlines_newline]
  rw [hb]
  refine ⟨?_, ht _, ?_⟩
  · rw [statement_eq, if_neg (Nat.not_lt.mpr hrank)]
    by_cases hs : s = Severity.INFO ∨ s = Severity.NONE
    · left; rw [if_pos hs]; rfl
    · right; rw [if_neg hs]; rfl
  · intro h0
    rw [ht, h0, Nat.zero_add]

/-- A `WARNING` statement with text `disk full`: the output ends with one
line feed under the shipped configuration. -/
theorem C5_auto_newline_adds_exactly_one_witness :
    Severity.WARNING.rank ≤ defaultConfig.MAX_SEVERITY_LEVEL.rank ∧
    trailingNewlines
        ((Logger.shlAll (Logger.ctor defaultConfig Severity.WARNING "fs.cpp" 9 sampleWorld).1
            [Value.str "disk full"] sampleWorld).1.m_osstream.str
          ++ (if defaultConfig.AUTO_NEWLINE then "\n" else "")) = 1 :=
  ⟨by decide,
    ((C5_auto_newline_adds_exactly_one defaultConfig Severity.WARNING "fs.cpp" 9
      [Value.str "disk full"] sampleWorld (by decide)).2.2 (by decide)).trans (by decide)⟩

/-- C6. Append chaining: after the values `v1 .. vn` have been appended in
that order to a freshly constructed statement, its severity, file name and
line number are the ones given at construction and its buffer is the status
elements written at construction followed by `text(v1) ++ ... ++ text(vn)`;
one further append returns the statement with the same three members and
extends the buffer by exactly the text of the value, unescaped. -/
theorem C6_append_chaining (cfg : Config) (s : Severity) (fileName : String)
    (lineNum : Int) (values : List Value) (v : Value) (w : World) :
    ((Logger.shlAll (Logger.ctor cfg s fileName lineNum w).1 values w).1.m_severity = s ∧
      (Logger.shlAll (Logger.ctor cfg s fileName lineNum w).1 values w).1.m_fileName
        = fileName ∧
      (Logger.shlAll (Logger.ctor cfg s fileName lineNum w).1 values w).1.m_lineNum
        = lineNum ∧
      (Logger.shlAll (Logger.ctor cfg s fileName lineNum w).1 values w).1.m_osstream.str =
        (Logger.ctor cfg s fileName lineNum w).1.m_osstream.str
          ++ String.join (values.map Value.text)) ∧
    ((Logger.shl (Logger.shlAll (Logger.ctor cfg s fileName lineNum w).1 values w).1 v
          w).1.m_severity = s ∧
      (Logger.shl (Logger.shlAll (Logger.ctor cfg s fileName lineNum w).1 values w).1 v
          w).1.m_fileName = fileName ∧
      (Logger.shl (Logger.shlAll (Logger.ctor cfg s fileName lineNum w).1 values w).1 v
          w).1.m_lineNum = lineNum ∧
      (Logger.shl (Logger.shlAll (Logger.ctor cfg s fileName lineNum w).1 values w).1 v
          w).1.m_osstream.str =
        (Logger.shlAll (Logger.ctor cfg s fileName lineNum w).1 values w).1.m_osstream.str
          ++ v.text) ∧
    Logger.shlAll (Logger.ctor cfg s fileName lineNum w).1 (values ++ [v]) w =
      Logger.shl (Logger.shlAll (Logger.ctor cfg s fileName lineNum w).1 values w).1 v w := by
  have hall := Logger.shlAll_fst (Logger.ctor cfg s fileName lineNum w).1 values w
    (by rw [Logger.ctor_fst])
  have hone := Logger.shl_fst (Logger.shlAll (Logger.ctor cfg s fileName lineNum w).1 values w).1
    v w (by rw [hall])
  refine ⟨?_, ?_, ?_⟩
  · rw [hall, Logger.ctor_fst]
    exact ⟨rfl, rfl, rfl, rfl⟩
  · rw [hone, hall, Logger.ctor_fst]
    exact ⟨rfl, rfl, rfl, rfl⟩
  · rw [Logger.shlAll_snoc, Logger.shlAll_snd]

/-- C7. No incremental output: the constructor, a single append and a chain
of appends each hand back the world they were given, so neither stream grows;
the destructor either leaves the world as it is or makes exactly one
insertion, of the whole buffer with its optional newline, into one of the two
streams. -/
theorem C7_only_the_destructor_writes (cfg : Config) (s : Severity) (fileName : String)
    (lineNum : Int) (self : Logger) (v : Value) (values : List Value) (w : World) :
    (Logger.ctor cfg s fileName lineNum w).2 = w ∧
    (Logger.shl self v w).2 = w ∧
    (Logger.shlAll self values w).2 = w ∧
    (Logger.dtor cfg self w = w ∨
      Logger.dtor cfg self w =
        { w with cout := w.cout ++
          [(if cfg.AUTO_NEWLINE then OStringStream.put self.m_osstream "\n"
            else self.m_osstream).str] } ∨
      Logger.dtor cfg self w =
        { w with cerr := w.cerr ++
          [(if cfg.AUTO_NEWLINE then OStringStream.put self.m_osstream "\n"
            else self.m_osstream).str] }) := by
  refine ⟨rfl, rfl, Logger.shlAll_snd self values w, ?_⟩
  unfold Logger.dtor
  by_cases hr : self.m_severity.rank > cfg.MAX_SEVERITY_LEVEL.rank
  · left; rw [if_pos hr]
  · right
    rw [if_neg hr]
    by_cases hs : self.m_severity = Severity.INFO ∨ self.m_severity = Severity.NONE
    · left; simp only [hs, if_true]
    · right; simp only [hs, if_false]

/-- C8. Line layout: a statement that is admitted by the threshold and is not
a simple-NONE statement writes, in one insertion, exactly the timestamp
field, the severity field, the location field, the message colour `ESC[38m`,
the appended text and the newline, in this order; each of the three fields is
present exactly when its display toggle is on (shipped: timestamp and severity
on, location off), the newline is a line feed exactly when auto-newline is on,
and nothing follows the message colour but the user text and the newline. -/
theorem C8_line_layout (cfg : Config) (s : Severity) (fileName : String) (lineNum : Int)
    (values : List Value) (w : World)
    (hsimple : ¬ (cfg.NONE_SIMPLE_LOG = true ∧ s = Severity.NONE))
    (hrank : s.rank ≤ cfg.MAX_SEVERITY_LEVEL.rank) :
    statement cfg s fileName lineNum values w =
        (if s = Severity.INFO ∨ s = Severity.NONE then
          { w with cout := w.cout ++
            [Spec.timestampField cfg w.clock ++ Spec.severityField cfg s
              ++ Spec.locationField cfg fileName lineNum ++ "\x1b[38m"
              ++ String.join (values.map Value.text)
              ++ (if cfg.AUTO_NEWLINE then "\n" else "")] }
        else
          { w with cerr := w.cerr ++
            [Spec.timestampField cfg w.clock ++ Spec.severityField cfg s
              ++ Spec.locationField cfg fileName lineNum ++ "\x1b[38m"
              ++ String.join (values.map Value.text)
              ++ (if cfg.AUTO_NEWLINE then "\n" else "")] }) ∧
      (cfg.DISPLAY_TIMESTAMP = false → Spec.timestampField cfg w.clock = "") ∧
      (cfg.DISPLAY_SEVERITY = false → Spec.severityField cfg s = "") ∧
      (cfg.DISPLAY_LOCATION = false → Spec.locationField cfg fileName lineNum = "") ∧
      (defaultConfig.DISPLAY_TIMESTAMP = true ∧ defaultConfig.DISPLAY_SEVERITY = true ∧
        defaultConfig.DISPLAY_LOCATION = false) := by
  have hsn : Spec.simpleNone cfg s = false := by
    cases hn : cfg.NONE_SIMPLE_LOG <;> simp_all [Spec.simpleNone]
  refine ⟨?_, ?_, ?_, ?_, rfl, rfl, rfl⟩
  · rw [statement_eq, if_neg (Nat.not_lt.mpr hrank)]
    simp [Spec.statusElements, hsn, Spec.newline, textOf]
  · intro h; simp [Spec.timestampField, h]
  · intro h; simp [Spec.severityField, h]
  · intro h; simp [Spec.locationField, h]

/-- A `DEBUG` statement with every field displayed and the threshold raised
to `VERBOSE`: the line is laid out field by field on standard error. -/
theorem C8_line_layout_witness :
    (¬ (allFieldsConfig.NONE_SIMPLE_LOG = true ∧ Severity.DEBUG = Severity.NONE) ∧
      Severity.DEBUG.rank ≤ allFieldsConfig.MAX_SEVERITY_LEVEL.rank) ∧
    statement allFieldsConfig Severity.DEBUG "main.cpp" 12
        [Value.str "n=", Value.int 3, Value.chr '!'] sampleWorld =
      { sampleWorld with cerr :=
        ["\x1b[38m[2023-01-05 09:30:07] \x1b[0m" ++ "\x1b[38m[DEBUG] \x1b[0m"
          ++ "\x1b[38m(main.cpp@12) \x1b[0m" ++ "\x1b[38m" ++ "n=3!" ++ "\n"] } :=
  ⟨by decide,
    (C8_line_layout allFieldsConfig Severity.DEBUG "main.cpp" 12
      [Value.str "n=", Value.int 3, Value.chr '!'] sampleWorld (by decide) (by decide)).1.trans
      (by decide)⟩

/-- C9 as stated fails: under the shipped configuration (maximum severity
`INFO`) a `WARNING` statement is written to standard error, but the line does
not contain `[WARN   ]`, a string of nine characters; the two padding spaces
follow the closing bracket. -/
theorem C9_counterexample :
    defaultConfig.MAX_SEVERITY_LEVEL = Severity.INFO ∧
    Severity.WARNING.rank ≤ defaultConfig.MAX_SEVERITY_LEVEL.rank ∧
    statement defaultConfig Severity.WARNING "fs.cpp" 9 [Value.str "disk full"] sampleWorld =
      { sampleWorld with cerr :=
        ["\x1b[38m[2023-01-05 09:30:07] \x1b[0m\x1b[33m[WARN]  \x1b[0m\x1b[38mdisk full\n"] } ∧
    ¬ ("[WARN   ]".data <:+:
      "\x1b[38m[2023-01-05 09:30:07] \x1b[0m\x1b[33m[WARN]  \x1b[0m\x1b[38mdisk full\n".data) ∧
    "[WARN   ]".length = 9 := by
  decide

/-- C9, amended. With the maximum severity `INFO` and the severity width 8, a
`WARNING` statement is written to standard error, in one insertion, as the
timestamp field, the severity field, the location field, the message colour,
the appended text and the newline; its severity field, when displayed, is the
yellow colour sequence, the eight characters `[WARN]` plus two spaces with the
padding after the closing bracket, and the reset sequence.  Standard output
is unchanged. -/
theorem C9_warning_line (cfg : Config) (fileName : String) (lineNum : Int)
    (values : List Value) (w : World)
    (hmax : cfg.MAX_SEVERITY_LEVEL = Severity.INFO) (hwidth : cfg.SEVERITY_WIDTH = 8) :
    statement cfg Severity.WARNING fileName lineNum values w =
        { w with cerr := w.cerr ++
          [Spec.timestampField cfg w.clock
            ++ (if cfg.DISPLAY_SEVERITY then "\x1b[33m" ++ "[WARN]  " ++ "\x1b[0m" else "")
            ++ Spec.locationField cfg fileName lineNum ++ "\x1b[38m"
            ++ String.join (values.map Value.text)
            ++ (if cfg.AUTO_NEWLINE then "\n" else "")] } ∧
      (statement cfg Severity.WARNING fileName lineNum values w).cout = w.cout ∧
      "[WARN]  ".length = 8 := by
  have hp : Spec.padRight ("[" ++ severityToString Severity.WARNING ++ "]") 8 = "[WARN]  " := by
    decide
  have hw : statement cfg Severity.WARNING fileName lineNum values w =
      { w with cerr := w.cerr ++
        [Spec.timestampField cfg w.clock
          ++ (if cfg.DISPLAY_SEVERITY then "\x1b[33m" ++ "[WARN]  " ++ "\x1b[0m" else "")
          ++ Spec.locationField cfg fileName lineNum ++ "\x1b[38m"
          ++ String.join (values.map Value.text)
          ++ (if cfg.AUTO_NEWLINE then "\n" else "")] } := by
    have hsev : Spec.severityField cfg Severity.WARNING =
        (if cfg.DISPLAY_SEVERITY then "\x1b[33m" ++ "[WARN]  " ++ "\x1b[0m" else "") := by
      unfold Spec.severityField
      rw [hwidth, hp]
      rfl
    have hst : Spec.statusElements cfg Severity.WARNING fileName lineNum w.clock =
        Spec.timestampField cfg w.clock ++ Spec.severityField cfg Severity.WARNING
          ++ Spec.locationField cfg fileName lineNum ++ "\x1b[38m" := by
      simp [Spec.statusElements, Spec.simpleNone]
    rw [statement_eq, hmax, if_neg (by decide), if_neg (by decide), hst, hsev]
    rfl
  rw [hw]
  exact ⟨rfl, rfl, by decide⟩

/-- The `WARNING` statement of the counterexample, as the amended claim lays
it out. -/
theorem C9_warning_line_witness :
    (defaultConfig.MAX_SEVERITY_LEVEL = Severity.INFO ∧ defaultConfig.SEVERITY_WIDTH = 8) ∧
    statement defaultConfig Severity.WARNING "fs.cpp" 9 [Value.str "disk full"] sampleWorld =
      { sampleWorld with cerr :=
        ["\x1b[38m[2023-01-05 09:30:07] \x1b[0m" ++ "\x1b[33m[WARN]  \x1b[0m" ++ "\x1b[38m"
          ++ "disk full" ++ "\n"] } :=
  ⟨by decide,
    (C9_warning_line defaultConfig "fs.cpp" 9 [Value.str "disk full"] sampleWorld rfl rfl).1.trans
      (by decide)⟩

/-- C10. Determinism except for the timestamp, for a fixed configuration,
severity, file name, line number and chain of values: (a) two runs that read
the same clock add the same insertions to the same streams, whatever the
streams held before; (b) two runs with any clock readings are both suppressed,
or both write to standard output, or both write to standard error, and what
they write is the timestamp part for the clock read followed by one and the
same rest of the line (severity field, location field, message colour, user
text, newline); (c) for a simple-NONE statement, or with the timestamp display
off, the two runs add the same insertions whatever the clocks read. -/
theorem C10_deterministic_up_to_timestamp (cfg : Config) (s : Severity) (fileName : String)
    (lineNum : Int) (values : List Value) :
    (∀ w1 w2 : World, w1.clock = w2.clock →
      written w1 (statement cfg s fileName lineNum values w1) =
        written w2 (statement cfg s fileName lineNum values w2)) ∧
    (∀ w1 w2 : World,
      (written w1 (statement cfg s fileName lineNum values w1) = ([], []) ∧
        written w2 (statement cfg s fileName lineNum values w2) = ([], [])) ∨
      (written w1 (statement cfg s fileName lineNum values w1) =
          ([Spec.lineTimestamp cfg s w1.clock
            ++ Spec.afterTimestamp cfg s fileName lineNum values], []) ∧
        written w2 (statement cfg s fileName lineNum values w2) =
          ([Spec.lineTimestamp cfg s w2.clock
            ++ Spec.afterTimestamp cfg s fileName lineNum values], [])) ∨
      (written w1 (statement cfg s fileName lineNum values w1) =
          ([], [Spec.lineTimestamp cfg s w1.clock
            ++ Spec.afterTimestamp cfg s fileName lineNum values]) ∧
        written w2 (statement cfg s fileName lineNum values w2) =
          ([], [Spec.lineTimestamp cfg s w2.clock
            ++ Spec.afterTimestamp cfg s fileName lineNum values]))) ∧
    ((cfg.NONE_SIMPLE_LOG = true ∧ s = Severity.NONE) ∨ cfg.DISPLAY_TIMESTAMP = false →
      ∀ w1 w2 : World,
        written w1 (statement cfg s fileName lineNum values w1) =
          written w2 (statement cfg s fileName lineNum values w2)) := by
  refine ⟨?_, ?_, ?_⟩
  · intro w1 w2 h
    rw [written_statement, written_statement, h]
  · intro w1 w2
    rw [written_statement, written_statement]
    by_cases hr : s.rank > cfg.MAX_SEVERITY_LEVEL.rank
    · left; simp only [hr, if_true, and_self]
    · right
      by_cases hs : s = Severity.INFO ∨ s = Severity.NONE
      · left; simp only [hr, hs, if_true, if_false, and_self]
      · right; simp only [hr, hs, if_false, and_self]
  · intro h w1 w2
    rw [written_statement, written_statement, lineTimestamp_clock_free cfg s w1.clock w2.clock h]

/-- Two runs of one `INFO` statement: with equal clock readings and different
stream histories they add the same insertion; a simple-NONE statement adds
the same insertion under different clock readings. -/
theorem C10_deterministic_up_to_timestamp_witness :
    (sampleWorld.clock = replayWorld.clock ∧
      written sampleWorld
          (statement defaultConfig Severity.INFO "srv.cpp" 5 [Value.str "up"] sampleWorld) =
        written replayWorld
          (statement defaultConfig Severity.INFO "srv.cpp" 5 [Value.str "up"] replayWorld)) ∧
    (((defaultConfig.NONE_SIMPLE_LOG = true ∧ Severity.NONE = Severity.NONE) ∨
        defaultConfig.DISPLAY_TIMESTAMP = false) ∧
      written sampleWorld
          (statement defaultConfig Severity.NONE "srv.cpp" 6 [Value.str "up"] sampleWorld) =
        written busyWorld
          (statement defaultConfig Severity.NONE "srv.cpp" 6 [Value.str "up"] busyWorld)) :=
  ⟨⟨rfl,
      (C10_deterministic_up_to_timestamp defaultConfig Severity.INFO "srv.cpp" 5
        [Value.str "up"]).1 sampleWorld replayWorld rfl⟩,
    ⟨Or.inl ⟨rfl, rfl⟩,
      (C10_deterministic_up_to_timestamp defaultConfig Severity.NONE "srv.cpp" 6
        [Value.str "up"]).2.2 (Or.inl ⟨rfl, rfl⟩) sampleWorld busyWorld⟩⟩

/-! ## Lemmas on padding, the timestamp shape and colour sequences -/

theorem length_replicate (k : Nat) (c : Char) : (String.replicate k c).length = k := by
  simp [String.replicate, String.length]

theorem padRight_length (s : String) (n : Nat) :
    (Spec.padRight s n).length = max s.length n := by
  simp only [Spec.padRight, String.length_append, length_replicate]
  omega

theorem padRight_of_le (s : String) (n : Nat) (h : n ≤ s.length) : Spec.padRight s n = s := by
  simp [Spec.padRight, Nat.sub_eq_zero_of_le h, replicate_zero]

theorem padRight_data (s : String) (n : Nat) :
    (Spec.padRight s n).data = s.data ++ List.replicate (n - s.length) ' ' := by
  simp [Spec.padRight, String.data_append, String.replicate]

theorem toString_of_nonneg (n : Int) (h : 0 ≤ n) : toString n = toString n.toNat := by
  cases n with
  | ofNat m => rfl
  | negSucc m => exact absurd h (by simp [Int.negSucc_lt_zero])

theorem isShapeChar_ne_escape (i : Nat) (c : Char) (h : Spec.isShapeChar i c = true) :
    c ≠ Char.ofNat 27 := by
  intro hc
  subst hc
  revert h
  unfold Spec.isShapeChar
  split_ifs <;> decide

theorem shapeFrom_ne_escape (i : Nat) (l : List Char) (h : Spec.shapeFrom i l = true) :
    ∀ c ∈ l, c ≠ Char.ofNat 27 := by
  induction l generalizing i with
  | nil => intro c hc; cases hc
  | cons x xs ih =>
    simp only [Spec.shapeFrom, Bool.and_eq_true] at h
    intro c hc
    rcases List.mem_cons.mp hc with rfl | hc
    · exact isShapeChar_ne_escape i c h.1
    · exact ih (i + 1) h.2 c hc

theorem shape_length (t : String) (h : Spec.hasTimestampShape t = true) : t.length = 19 := by
  simp only [Spec.hasTimestampShape, Bool.and_eq_true, beq_iff_eq] at h
  exact h.1

theorem shape_ne_escape (t : String) (h : Spec.hasTimestampShape t = true) :
    ∀ c ∈ t.data, c ≠ Char.ofNat 27 := by
  simp only [Spec.hasTimestampShape, Bool.and_eq_true] at h
  exact shapeFrom_ne_escape 0 t.data h.2

theorem stripEscapes_plain (l r : List Char) (h : ∀ c ∈ l, c ≠ Char.ofNat 27) :
    stripEscapes false (l ++ r) = l ++ stripEscapes false r := by
  induction l with
  | nil => rfl
  | cons x xs ih =>
    have hx : x ≠ Char.ofNat 27 := h x (List.mem_cons_self x xs)
    simp only [List.cons_append, stripEscapes, hx, if_false]
    exact congrArg (List.cons x) (ih (fun c hc => h c (List.mem_cons_of_mem x hc)))

theorem stripEscapes_default (r : List Char) :
    stripEscapes false ("\x1b[38m".data ++ r) = stripEscapes false r := by
  simp [stripEscapes]

theorem stripEscapes_reset (r : List Char) :
    stripEscapes false ("\x1b[0m".data ++ r) = stripEscapes false r := by
  simp [stripEscapes]

/-! ## Lemmas on call sites -/

theorem foldl_pureArg {μ : Type} (self : Logger) (vs : List Value) (st : State μ) :
    (vs.map pureArg).foldl
        (fun (acc : Logger × State μ) (e : Expr μ) =>
          let ev := e acc.2
          let a := Logger.shl acc.1 ev.1 ev.2.world
          (a.1, { ev.2 with world := a.2 }))
        (self, st) =
      ((Logger.shlAll self vs st.world).1, st) := by
  induction vs generalizing self with
  | nil => rfl
  | cons v vs ih =>
    simp only [List.map_cons, List.foldl_cons, Logger.shlAll_cons, Logger.shl_snd]
    exact ih (Logger.shl self v st.world).1

/-- With logging enabled and arguments free of side effects, a call site is
the log statement on the world and leaves the variables alone. -/
theorem ZFLOG_pure {μ : Type} (cfg : Config) (s : Severity) (fileName : String) (lineNum : Int)
    (vs : List Value) (st : State μ) (h : cfg.LOGGING_ENABLED = true) :
    ZFLOG cfg s fileName lineNum (vs.map pureArg) st =
      { st with world := statement cfg s fileName lineNum vs st.world } := by
  have hf := foldl_pureArg (Logger.ctor cfg s fileName lineNum st.world).1 vs st
  simp only [ZFLOG, h, if_true, logExpression]
  have hc : (Logger.ctor cfg s fileName lineNum st.world).2 = st.world := rfl
  simp only [hc]
  rw [show ({ st with world := st.world } : State μ) = st from rfl, hf]
  simp only [statement, hc, Logger.shlAll_snd]

/-! ## Lemmas on the rendering of calendar times -/

theorem digitChar_isDigit (k : Nat) (h : k < 10) : (Nat.digitChar k).isDigit = true := by
  interval_cases k <;> rfl

theorem toDigits_one (n : Nat) (h : n < 10) : Nat.toDigits 10 n = [Nat.digitChar n] := by
  unfold Nat.toDigits
  simp only [Nat.toDigitsCore]
  have a1 : n / 10 = 0 := by omega
  have a2 : n % 10 = n := by omega
  simp only [a1, a2, if_true]

theorem toDigits_two (n : Nat) (h1 : 10 ≤ n) (h2 : n < 100) :
    Nat.toDigits 10 n = [Nat.digitChar (n / 10), Nat.digitChar (n % 10)] := by
  obtain ⟨k, rfl⟩ : ∃ k, n = k + 10 := ⟨n - 10, by omega⟩
  obtain ⟨f, hf⟩ : ∃ f, k + 10 + 1 = f + 1 + 1 := ⟨k + 9, by omega⟩
  unfold Nat.toDigits
  rw [hf]
  simp only [Nat.toDigitsCore]
  have a1 : (k + 10) / 10 ≠ 0 := by omega
  have a2 : (k + 10) / 10 / 10 = 0 := by omega
  simp only [a1, a2, if_true, if_false]
  congr 2
  omega

theorem toDigits_four (n : Nat) (h1 : 1000 ≤ n) (h2 : n < 10000) :
    Nat.toDigits 10 n =
      [Nat.digitChar (n / 1000), Nat.digitChar (n / 100 % 10), Nat.digitChar (n / 10 % 10),
        Nat.digitChar (n % 10)] := by
  obtain ⟨k, rfl⟩ : ∃ k, n = k + 1000 := ⟨n - 1000, by omega⟩
  obtain ⟨f, hf⟩ : ∃ f, k + 1000 + 1 = f + 1 + 1 + 1 + 1 := ⟨k + 997, by omega⟩
  unfold Nat.toDigits
  rw [hf]
  simp only [Nat.toDigitsCore]
  have a1 : (k + 1000) / 10 ≠ 0 := by omega
  have a2 : (k + 1000) / 10 / 10 ≠ 0 := by omega
  have a3 : (k + 1000) / 10 / 10 / 10 ≠ 0 := by omega
  have a4 : (k + 1000) / 10 / 10 / 10 / 10 = 0 := by omega
  simp only [a1, a2, a3, a4, if_true, if_false]
  have b1 : (k + 1000) / 10 / 10 / 10 % 10 = (k + 1000) / 1000 := by omega
  have b2 : (k + 1000) / 10 / 10 % 10 = (k + 1000) / 100 % 10 := by omega
  rw [b1, b2]

theorem pad2_data (n : Nat) (h : n < 100) :
    (pad2 n).data = [Nat.digitChar (n / 10), Nat.digitChar (n % 10)] := by
  unfold pad2
  by_cases h10 : n < 10
  · rw [if_pos h10, String.data_append]
    have hd : (toString n).data = [Nat.digitChar n] := toDigits_one n h10
    have a1 : n / 10 = 0 := by omega
    have a2 : n % 10 = n := by omega
    rw [hd, a1, a2]
    rfl
  · rw [if_neg h10]
    exact toDigits_two n (by omega) h

theorem year_data (y : Int) (h1 : 1000 ≤ y) (h2 : y ≤ 9999) :
    (toString y).data =
      [Nat.digitChar (y.toNat / 1000), Nat.digitChar (y.toNat / 100 % 10),
        Nat.digitChar (y.toNat / 10 % 10), Nat.digitChar (y.toNat % 10)] := by
  rw [toString_of_nonneg y (by omega)]
  exact toDigits_four y.toNat (by omega) (by omega)

/-- A calendar time with a year of four digits is rendered in the shape
`YYYY-MM-DD HH:MM:SS`. -/
theorem strftime_shape (t : Tm) (h : t.inCalendarRange = true) :
    Spec.hasTimestampShape (strftime t) = true := by
  simp only [Tm.inCalendarRange, Bool.and_eq_true, decide_eq_true_eq] at h
  obtain ⟨⟨⟨⟨⟨⟨⟨hy1, hy2⟩, hmon⟩, hd1⟩, hd2⟩, hh⟩, hm⟩, hs⟩ := h
  have hdata : (strftime t).data =
      (toString (t.tm_year + 1900)).data ++ '-' :: (pad2 (t.tm_mon + 1)).data
        ++ '-' :: (pad2 t.tm_mday).data ++ ' ' :: (pad2 t.tm_hour).data
        ++ ':' :: (pad2 t.tm_min).data ++ ':' :: (pad2 t.tm_sec).data := by
    simp [strftime, String.data_append]
  have hlen : (strftime t).length = (strftime t).data.length := rfl
  unfold Spec.hasTimestampShape
  rw [hlen, hdata, year_data _ hy1 hy2, pad2_data _ (by omega), pad2_data _ (by omega),
    pad2_data _ (by omega), pad2_data _ (by omega), pad2_data _ (by omega)]
  simp [Spec.shapeFrom, Spec.isShapeChar, digitChar_isDigit, Nat.mod_lt, Nat.div_lt_iff_lt_mul]
  exact ⟨digitChar_isDigit _ (by omega), digitChar_isDigit _ (by omega),
    digitChar_isDigit _ (by omega), digitChar_isDigit _ (by omega),
    digitChar_isDigit _ (by omega), digitChar_isDigit _ (by omega)⟩

/-! ## The claims, continued -/

/-- C11. Disabled build: with `LOGGING_ENABLED` undefined, a log call site of
any severity with any chain of argument expressions leaves the program state
exactly as it was: no argument expression is evaluated (whatever an argument
would have done to the variables or to the world does not happen), no
statement is constructed or destroyed, and neither stream receives anything. -/
theorem C11_disabled_call_site_is_inert {μ : Type} (cfg : Config) (s : Severity)
    (fileName : String) (lineNum : Int) (args : List (Expr μ)) (st : State μ)
    (h : cfg.LOGGING_ENABLED = false) :
    ZFLOG cfg s fileName lineNum args st = st ∧
      (ZFLOG cfg s fileName lineNum args st).vars = st.vars ∧
      (ZFLOG cfg s fileName lineNum args st).world.cout = st.world.cout ∧
      (ZFLOG cfg s fileName lineNum args st).world.cerr = st.world.cerr := by
  have hz : ZFLOG cfg s fileName lineNum args st = st := by
    simp [ZFLOG, h]
  rw [hz]
  exact ⟨rfl, rfl, rfl, rfl⟩

/-- A call whose argument increments a counter: with logging disabled the
counter stays at zero and nothing is written; with logging enabled the same
call moves the counter to one and writes a line to standard error. -/
theorem C11_disabled_call_site_is_inert_witness :
    (disabledConfig.LOGGING_ENABLED = false ∧
      ZFLOG disabledConfig Severity.ERROR "main.cpp" 3
          [pureArg (Value.str "n="), counterArg] sampleState = sampleState) ∧
    ZFLOG defaultConfig Severity.ERROR "main.cpp" 3
        [pureArg (Value.str "n="), counterArg] sampleState = loggedState :=
  ⟨⟨rfl,
      (C11_disabled_call_site_is_inert disabledConfig Severity.ERROR "main.cpp" 3
        [pureArg (Value.str "n="), counterArg] sampleState rfl).1⟩,
    by decide⟩

/-- C12. Severity field rendering, with the severity width 8: run on a
statement of severity `S` whose stream has no pending width (as at
construction), `displaySeverity` appends `colour(S)`, then `[name(S)]`
left-justified and padded with spaces to 8, then the reset sequence; the
constructor writes this field between the timestamp field and the location
field.  The names are `NONE`, `FATAL`, `ERROR`, `WARN`, `INFO`, `DEBUG`,
`VERB`; the colour is red then bold for `FATAL`, red for `ERROR`, yellow for
`WARNING` and the default sequence for the others; padding never truncates. -/
theorem C12_severity_field (cfg : Config) (s : Severity) (fileName : String) (lineNum : Int)
    (w : World) (h8 : cfg.SEVERITY_WIDTH = 8) :
    (∀ self : Logger, self.m_severity = s → self.m_osstream.width = 0 →
      (Logger.displaySeverity cfg self).m_osstream.str =
        self.m_osstream.str ++ (Spec.colour s
          ++ Spec.padRight ("[" ++ severityToString s ++ "]") 8 ++ "\x1b[0m")) ∧
    (cfg.DISPLAY_SEVERITY = true → Spec.simpleNone cfg s = false →
      (Logger.ctor cfg s fileName lineNum w).1.m_osstream.str =
        Spec.timestampField cfg w.clock
          ++ (Spec.colour s ++ Spec.padRight ("[" ++ severityToString s ++ "]") 8 ++ "\x1b[0m")
          ++ Spec.locationField cfg fileName lineNum ++ "\x1b[38m") ∧
    (severityToString Severity.NONE = "NONE" ∧ severityToString Severity.FATAL = "FATAL" ∧
      severityToString Severity.ERROR = "ERROR" ∧ severityToString Severity.WARNING = "WARN" ∧
      severityToString Severity.INFO = "INFO" ∧ severityToString Severity.DEBUG = "DEBUG" ∧
      severityToString Severity.VERBOSE = "VERB") ∧
    (Spec.colour Severity.FATAL = "\x1b[31m\x1b[1m" ∧ Spec.colour Severity.ERROR = "\x1b[31m" ∧
      Spec.colour Severity.WARNING = "\x1b[33m" ∧ Spec.colour Severity.NONE = "\x1b[38m" ∧
      Spec.colour Severity.INFO = "\x1b[38m" ∧ Spec.colour Severity.DEBUG = "\x1b[38m" ∧
      Spec.colour Severity.VERBOSE = "\x1b[38m") ∧
    (∀ (t : String) (n : Nat),
      Spec.padRight t n = t ++ String.replicate (n - t.length) ' ' ∧
      (Spec.padRight t n).length = max t.length n ∧
      t.data <+: (Spec.padRight t n).data) := by
  refine ⟨?_, ?_, ?_, ?_, ?_⟩
  · intro self hs hw
    rw [Logger.displaySeverity_eq cfg self hw, h8, hs]
    rfl
  · intro hd hn
    rw [Logger.ctor_fst]
    simp only [Spec.statusElements, hn, Spec.severityField, hd, h8, OStringStream.str]
    rfl
  · exact ⟨rfl, rfl, rfl, rfl, rfl, rfl, rfl⟩
  · exact ⟨by decide, rfl, rfl, rfl, rfl, rfl, rfl⟩
  · intro t n
    refine ⟨rfl, padRight_length t n, ?_⟩
    rw [padRight_data]
    exact List.prefix_append _ _

/-- The severity field of a `FATAL` statement under the shipped
configuration. -/
theorem C12_severity_field_witness :
    (defaultConfig.SEVERITY_WIDTH = 8 ∧ freshLogger.m_severity = Severity.FATAL ∧
      freshLogger.m_osstream.width = 0) ∧
    (Logger.displaySeverity defaultConfig freshLogger).m_osstream.str =
      "\x1b[31m\x1b[1m[FATAL] \x1b[0m" :=
  ⟨by decide,
    ((C12_severity_field defaultConfig Severity.FATAL "main.cpp" 12 sampleWorld rfl).1
      freshLogger rfl rfl).trans (by decide)⟩

/-- C13. Timestamp field rendering, with the timestamp width 22 and a clock
whose local time is rendered in the shape `YYYY-MM-DD HH:MM:SS` (nineteen
characters): run on a stream with no pending width (as at construction),
`displayTimestamp` appends the colour `ESC[38m`, the bracketed time, exactly
one space of padding and the reset sequence; the constructor writes this
field first.  The bracketed time has 21 characters and the padded field 22. -/
theorem C13_timestamp_field (cfg : Config) (s : Severity) (fileName : String) (lineNum : Int)
    (w : World) (hshape : Spec.hasTimestampShape (strftime w.clock) = true)
    (h22 : cfg.TIMESTAMP_WIDTH = 22) :
    (∀ self : Logger, self.m_osstream.width = 0 →
      (Logger.displayTimestamp cfg w self).m_osstream.str =
        self.m_osstream.str
          ++ ("\x1b[38m" ++ "[" ++ strftime w.clock ++ "]" ++ " " ++ "\x1b[0m")) ∧
    (cfg.DISPLAY_TIMESTAMP = true → Spec.simpleNone cfg s = false →
      (Logger.ctor cfg s fileName lineNum w).1.m_osstream.str =
        ("\x1b[38m" ++ "[" ++ strftime w.clock ++ "]" ++ " " ++ "\x1b[0m")
          ++ Spec.severityField cfg s ++ Spec.locationField cfg fileName lineNum
          ++ "\x1b[38m") ∧
    ("[" ++ strftime w.clock ++ "]").length = 21 ∧
    Spec.padRight ("[" ++ strftime w.clock ++ "]") 22 = "[" ++ strftime w.clock ++ "]" ++ " " ∧
    (Spec.padRight ("[" ++ strftime w.clock ++ "]") 22).length = 22 := by
  have hlen : ("[" ++ strftime w.clock ++ "]").length = 21 := by
    simp only [String.length_append, shape_length _ hshape]
    rfl
  have hpad : Spec.padRight ("[" ++ strftime w.clock ++ "]") 22 =
      "[" ++ strftime w.clock ++ "]" ++ " " := by
    unfold Spec.padRight
    rw [hlen]
    rfl
  refine ⟨?_, ?_, hlen, hpad, ?_⟩
  · intro self hw
    rw [Logger.displayTimestamp_eq cfg w self hw, h22, hpad]
    simp only [OStringStream.str, String.append_assoc]
  · intro hd hn
    rw [Logger.ctor_fst]
    have hts : Spec.timestampField cfg w.clock =
        "\x1b[38m" ++ "[" ++ strftime w.clock ++ "]" ++ " " ++ "\x1b[0m" := by
      unfold Spec.timestampField
      rw [if_pos hd, h22, hpad]
      simp only [String.append_assoc]
    simp only [Spec.statusElements, hn, hts, OStringStream.str, Bool.false_eq_true, if_false]
  · rw [padRight_length, hlen]
    rfl

/-- The timestamp field for the local time 2023-01-05 09:30:07. -/
theorem C13_timestamp_field_witness :
    (Spec.hasTimestampShape (strftime sampleWorld.clock) = true ∧
      defaultConfig.TIMESTAMP_WIDTH = 22 ∧ freshLogger.m_osstream.width = 0) ∧
    (Logger.displayTimestamp defaultConfig sampleWorld freshLogger).m_osstream.str =
      "\x1b[38m[2023-01-05 09:30:07] \x1b[0m" :=
  ⟨by decide,
    ((C13_timestamp_field defaultConfig Severity.FATAL "main.cpp" 12 sampleWorld (by decide)
      rfl).1 freshLogger rfl).trans (by decide)⟩

/-- C14. Location field rendering, for every file name and every
non-negative line number: run on a stream with no pending width (as at
construction), `displayLocation` appends the location colour, then
`(file@line)` with the line in decimal, left-justified and padded to the
location width, then exactly one space, then the reset sequence; when the
location is displayed the constructor writes this field after the severity
field.  The padding applies to the parenthesised text only and never
truncates it, and under the width 1 of the shipped configuration it adds
nothing. -/
theorem C14_location_field (cfg : Config) (s : Severity) (fileName : String) (lineNum : Int)
    (w : World) (hline : 0 ≤ lineNum) :
    (∀ self : Logger, self.m_fileName = fileName → self.m_lineNum = lineNum →
      self.m_osstream.width = 0 →
      (Logger.displayLocation cfg self).m_osstream.str =
        self.m_osstream.str ++ ("\x1b[38m"
          ++ Spec.padRight ("(" ++ fileName ++ "@" ++ toString lineNum.toNat ++ ")")
            cfg.LOCATION_WIDTH
          ++ " " ++ "\x1b[0m")) ∧
    (cfg.DISPLAY_LOCATION = true → Spec.simpleNone cfg s = false →
      (Logger.ctor cfg s fileName lineNum w).1.m_osstream.str =
        Spec.timestampField cfg w.clock ++ Spec.severityField cfg s
          ++ ("\x1b[38m"
            ++ Spec.padRight ("(" ++ fileName ++ "@" ++ toString lineNum.toNat ++ ")")
              cfg.LOCATION_WIDTH
            ++ " " ++ "\x1b[0m")
          ++ "\x1b[38m") ∧
    (cfg.LOCATION_WIDTH = 1 →
      Spec.padRight ("(" ++ fileName ++ "@" ++ toString lineNum.toNat ++ ")") cfg.LOCATION_WIDTH
        = "(" ++ fileName ++ "@" ++ toString lineNum.toNat ++ ")") ∧
    ("(" ++ fileName ++ "@" ++ toString lineNum.toNat ++ ")").data <+:
      (Spec.padRight ("(" ++ fileName ++ "@" ++ toString lineNum.toNat ++ ")")
        cfg.LOCATION_WIDTH).data ∧
    defaultConfig.LOCATION_WIDTH = 1 := by
  have hdec : toString lineNum = toString lineNum.toNat := toString_of_nonneg lineNum hline
  refine ⟨?_, ?_, ?_, ?_, rfl⟩
  · intro self hf hl hw
    rw [Logger.displayLocation_eq cfg self hw, hf, hl, hdec]
    rfl
  · intro hd hn
    rw [Logger.ctor_fst]
    simp only [Spec.statusElements, hn, Spec.locationField, hd, hdec, OStringStream.str,
      Bool.false_eq_true, if_false, if_true]
  · intro h1
    apply padRight_of_le
    rw [h1]
    simp only [String.length_append]
    have : "(".length = 1 := rfl
    omega
  · rw [padRight_data]
    exact List.prefix_append _ _

/-- The location field of `main.cpp`, line 12, under the shipped width 1. -/
theorem C14_location_field_witness :
    ((0 : Int) ≤ 12 ∧ freshLogger.m_fileName = "main.cpp" ∧ freshLogger.m_lineNum = 12 ∧
      freshLogger.m_osstream.width = 0) ∧
    (Logger.displayLocation defaultConfig freshLogger).m_osstream.str =
      "\x1b[38m(main.cpp@12) \x1b[0m" :=
  ⟨by decide,
    ((C14_location_field defaultConfig Severity.FATAL "main.cpp" 12 sampleWorld (by decide)).1
      freshLogger rfl rfl rfl).trans (by decide)⟩

/-- C15. `NONE` is never suppressed: whatever severity `MAX_SEVERITY_LEVEL`
names, a `NONE` statement passes the threshold test and its buffer is written
to standard output in one insertion; and the emitted severities are downward
closed in rank: if a statement of severity `S` writes something and
`rank(S') <= rank(S)`, then every statement of severity `S'` writes
something. -/
theorem C15_none_never_suppressed (cfg : Config) (fileName : String) (lineNum : Int)
    (values : List Value) (w : World) :
    ¬ (Severity.NONE.rank > cfg.MAX_SEVERITY_LEVEL.rank) ∧
    statement cfg Severity.NONE fileName lineNum values w =
      { w with cout := w.cout ++
        [(Logger.ctor cfg Severity.NONE fileName lineNum w).1.m_osstream.str ++ textOf values
          ++ (if cfg.AUTO_NEWLINE then "\n" else "")] } ∧
    (∀ (s s' : Severity) (fileName' : String) (lineNum' : Int) (values' : List Value)
        (w' : World),
      s'.rank ≤ s.rank →
      written w (statement cfg s fileName lineNum values w) ≠ ([], []) →
      written w' (statement cfg s' fileName' lineNum' values' w') ≠ ([], [])) := by
  have h0 : ¬ (Severity.NONE.rank > cfg.MAX_SEVERITY_LEVEL.rank) := by
    simp [Severity.rank]
  refine ⟨h0, ?_, ?_⟩
  · rw [statement_eq, if_neg h0, if_pos (Or.inr rfl), Logger.ctor_fst]
    rfl
  · intro s s' fileName' lineNum' values' w' hle hem
    rw [written_statement] at hem ⊢
    by_cases hr : s.rank > cfg.MAX_SEVERITY_LEVEL.rank
    · rw [if_pos hr] at hem
      exact absurd rfl hem
    · have hr' : ¬ (s'.rank > cfg.MAX_SEVERITY_LEVEL.rank) := by omega
      rw [if_neg hr']
      by_cases hs : s' = Severity.INFO ∨ s' = Severity.NONE
      · rw [if_pos hs]; simp
      · rw [if_neg hs]; simp

/-- With the threshold at `NONE` a `NONE` statement is still written; and
under the shipped threshold, since an `INFO` statement writes something, so
does an `ERROR` statement. -/
theorem C15_none_never_suppressed_witness :
    (statement { defaultConfig with MAX_SEVERITY_LEVEL := Severity.NONE } Severity.NONE "a.cpp" 1
        [Value.str "hi"] sampleWorld).cout = ["hi\n"] ∧
    (Severity.ERROR.rank ≤ Severity.INFO.rank ∧
      written sampleWorld
          (statement defaultConfig Severity.INFO "a.cpp" 1 [Value.str "hi"] sampleWorld)
        ≠ ([], []) ∧
      written busyWorld
          (statement defaultConfig Severity.ERROR "b.cpp" 2 [Value.int 5] busyWorld)
        ≠ ([], [])) :=
  ⟨by
      rw [(C15_none_never_suppressed { defaultConfig with MAX_SEVERITY_LEVEL := Severity.NONE }
        "a.cpp" 1 [Value.str "hi"] sampleWorld).2.1]
      decide,
    by decide, by decide,
    (C15_none_never_suppressed defaultConfig "a.cpp" 1 [Value.str "hi"] sampleWorld).2.2
      Severity.INFO Severity.ERROR "b.cpp" 2 [Value.int 5] busyWorld (by decide) (by decide)⟩

/-! ## Lemmas on the visible width of the status elements -/

theorem tag_length_le (s : Severity) : ("[" ++ severityToString s ++ "]").length ≤ 8 := by
  cases s <;> decide

theorem paddedTag_length (s : Severity) :
    (Spec.padRight ("[" ++ severityToString s ++ "]") 8).length = 8 := by
  rw [padRight_length]
  exact Nat.max_eq_right (tag_length_le s)

theorem paddedTime_ne_escape (t : String) (n : Nat) (h : Spec.hasTimestampShape t = true) :
    ∀ c ∈ (Spec.padRight ("[" ++ t ++ "]") n).data, c ≠ Char.ofNat 27 := by
  intro c hc
  rw [padRight_data] at hc
  simp only [String.data_append, List.mem_append] at hc
  rcases hc with ((hc | hc) | hc) | hc
  · have : c = '[' := by simpa using hc
    rw [this]; decide
  · exact shape_ne_escape t h c hc
  · have : c = ']' := by simpa using hc
    rw [this]; decide
  · rw [List.eq_of_mem_replicate hc]; decide

theorem stripEscapes_severity_tail (s : Severity) :
    stripEscapes false
        ("\x1b[0m" ++ (Spec.colour s
          ++ (Spec.padRight ("[" ++ severityToString s ++ "]") 8
            ++ ("\x1b[0m" ++ "\x1b[38m")))).data =
      (Spec.padRight ("[" ++ severityToString s ++ "]") 8).data := by
  cases s <;> decide

/-- C16. Column alignment, under the shipped widths (timestamp 22,
severity 8) and display toggles (timestamp and severity on, location off) and
a clock rendered in the shape `YYYY-MM-DD HH:MM:SS`: for every severity the
bracketed tag has at most 8 characters and the padded tag exactly 8; the
bracketed timestamp is padded to exactly 22; and for every severity other
than `NONE` the status elements written at construction, with their colour
and reset sequences removed, are the padded timestamp followed by the padded
tag, 30 characters in all, so the user text starts at the same column
whatever the severity. -/
theorem C16_column_alignment (cfg : Config) (s : Severity) (fileName : String)
    (lineNum : Int) (w : World)
    (htw : cfg.TIMESTAMP_WIDTH = 22) (hsw : cfg.SEVERITY_WIDTH = 8)
    (hdt : cfg.DISPLAY_TIMESTAMP = true) (hds : cfg.DISPLAY_SEVERITY = true)
    (hdl : cfg.DISPLAY_LOCATION = false)
    (hshape : Spec.hasTimestampShape (strftime w.clock) = true)
    (hs : s ≠ Severity.NONE) :
    (∀ S : Severity, ("[" ++ severityToString S ++ "]").length ≤ 8 ∧
      (Spec.padRight ("[" ++ severityToString S ++ "]") cfg.SEVERITY_WIDTH).length = 8) ∧
    (Spec.padRight ("[" ++ strftime w.clock ++ "]") cfg.TIMESTAMP_WIDTH).length = 22 ∧
    visible (Logger.ctor cfg s fileName lineNum w).1.m_osstream.str =
      Spec.padRight ("[" ++ strftime w.clock ++ "]") 22
        ++ Spec.padRight ("[" ++ severityToString s ++ "]") 8 ∧
    (visible (Logger.ctor cfg s fileName lineNum w).1.m_osstream.str).length = 30 := by
  have hlen : ("[" ++ strftime w.clock ++ "]").length = 21 := by
    simp only [String.length_append, shape_length _ hshape]
    rfl
  have h22 : (Spec.padRight ("[" ++ strftime w.clock ++ "]") 22).length = 22 := by
    rw [padRight_length, hlen]
    rfl
  have hsn : Spec.simpleNone cfg s = false := by
    cases s <;> simp_all [Spec.simpleNone]
  have hstr : (Logger.ctor cfg s fileName lineNum w).1.m_osstream.str =
      "\x1b[38m" ++ (Spec.padRight ("[" ++ strftime w.clock ++ "]") 22
        ++ ("\x1b[0m" ++ (Spec.colour s
          ++ (Spec.padRight ("[" ++ severityToString s ++ "]") 8
            ++ ("\x1b[0m" ++ "\x1b[38m"))))) := by
    rw [Logger.ctor_fst]
    simp only [OStringStream.str, Spec.statusElements, hsn, Spec.timestampField, hdt, htw,
      Spec.severityField, hds, hsw, Spec.locationField, hdl, Bool.false_eq_true, if_false,
      if_true]
    generalize Spec.padRight ("[" ++ strftime w.clock ++ "]") 22 = p22
    generalize Spec.padRight ("[" ++ severityToString s ++ "]") 8 = p8
    generalize Spec.colour s = c
    simp only [String.append_assoc, String.append_empty, String.empty_append]
  have hvis : visible (Logger.ctor cfg s fileName lineNum w).1.m_osstream.str =
      Spec.padRight ("[" ++ strftime w.clock ++ "]") 22
        ++ Spec.padRight ("[" ++ severityToString s ++ "]") 8 := by
    rw [hstr]
    unfold visible
    rw [String.data_append, stripEscapes_default, String.data_append,
      stripEscapes_plain _ _ (paddedTime_ne_escape _ 22 hshape), stripEscapes_severity_tail]
    apply String.ext
    rw [String.data_append]
  refine ⟨fun S => ⟨tag_length_le S, ?_⟩, ?_, hvis, ?_⟩
  · rw [hsw]; exact paddedTag_length S
  · rw [htw]; exact h22
  · rw [hvis, String.length_append, h22, paddedTag_length]

/-- The status elements of a `FATAL` and of a `WARNING` statement under the
shipped configuration: thirty visible characters each. -/
theorem C16_column_alignment_witness :
    (defaultConfig.TIMESTAMP_WIDTH = 22 ∧ defaultConfig.SEVERITY_WIDTH = 8 ∧
      defaultConfig.DISPLAY_TIMESTAMP = true ∧ defaultConfig.DISPLAY_SEVERITY = true ∧
      defaultConfig.DISPLAY_LOCATION = false ∧
      Spec.hasTimestampShape (strftime sampleWorld.clock) = true ∧
      Severity.FATAL ≠ Severity.NONE ∧ Severity.WARNING ≠ Severity.NONE) ∧
    visible (Logger.ctor defaultConfig Severity.FATAL "main.cpp" 12 sampleWorld).1.m_osstream.str
      = "[2023-01-05 09:30:07] [FATAL] " ∧
    (visible
      (Logger.ctor defaultConfig Severity.WARNING "fs.cpp" 9 sampleWorld).1.m_osstream.str).length
      = 30 :=
  ⟨by decide,
    (C16_column_alignment defaultConfig Severity.FATAL "main.cpp" 12 sampleWorld rfl rfl rfl rfl
      rfl (by decide) (by decide)).2.2.1.trans (by decide),
    (C16_column_alignment defaultConfig Severity.WARNING "fs.cpp" 9 sampleWorld rfl rfl rfl rfl
      rfl (by decide) (by decide)).2.2.2⟩

end ZfLog
